import Mathlib

/-!
Shallow embedding of `dns_compare.py` (JupiterEight/dns_compare).

The script loads a BIND zone file, queries every record against a single
nameserver, and compares each answer rdata against the zone's rdata with
dnspython's `rd == rdata` equality (which compares rdtype, rdclass and the
canonical rdata payload, never the TTL).  The module-level loop (lines
76-114) is embedded as explicit state passing over a `LoopState`; the
network is an oracle `query : String → Nat → Nat → QueryResult` supplied to
the driver.  Python's module scope for the answer-loop variable `rd` is the
`rdVar : Option Rdata` field: `none` means `rd` was never bound, and
reading it then raises a `NameError` (modelled as `Except NameError`).
Printed output is the ordered event list `List OutEvent`.
-/

namespace DnsCompare

/-- dnspython numeric constant `dns.rdatatype.SOA`. -/
def SOA : Nat := 6

/-- dnspython numeric constant `dns.rdatatype.NS`. -/
def NS : Nat := 2

/-- dnspython numeric constant `dns.rdatatype.A`. -/
def A : Nat := 1

/-- dnspython numeric constant `dns.rdataclass.IN`. -/
def IN : Nat := 1

/-- A dnspython rdata value: record type, record class, and the canonical
(digestable) payload bytes.  dnspython's `Rdata.__eq__` — the `rd == rdata`
test on line 88 — compares exactly these three components; rdata objects
carry no TTL and no owner name. -/
structure Rdata where
  rdtype : Nat
  rdclass : Nat
  payload : List Nat
deriving DecidableEq, Repr

/-- One `(name, ttl, rdata)` triple as produced by `z.iterate_rdatas()`
(line 76). -/
structure ZoneRecord where
  name : String
  ttl : Nat
  rdata : Rdata
deriving DecidableEq, Repr

/-- The parsed command-line options (lines 46-62).  The three required
options stay `Option String` because optparse leaves them `None` when
absent. -/
structure Options where
  zone : Option String
  zonefile : Option String
  nameserver : Option String
  verbose : Bool
  compare_soa : Bool
  compare_ns : Bool
deriving DecidableEq, Repr

/-- A `dns.exception.DNSException` kind raised by `r.query` (line 90). -/
inductive DNSFailure
  | timeout
  | nxdomain
  | noAnswer
  | serverError
  | protocolError
deriving DecidableEq, Repr

/-- Outcome of `r.query(name, rdtype, rdclass)` on line 85: either the
answer rdatas in iteration order, or a raised exception. -/
abbrev QueryResult := Except DNSFailure (List Rdata)

/-- The value of the `result` variable of the script: `''` initially
(line 83), an answer rdata after `result = rd` (line 87), or the
exception class after `result = e.__class__` (line 91).  The script never
reads `result` again — the verbose block prints `rd` instead. -/
inductive ResultVal
  | empty
  | ans (rd : Rdata)
  | exc (e : DNSFailure)
deriving DecidableEq, Repr

/-- Python's `NameError`: raised when the verbose block reads `rd` (line
103) although the answer loop never bound it. -/
inductive NameError
  | rdUnbound
deriving DecidableEq, Repr

/-- Lines 86-89: `for rd in ans: result = rd; if rd == rdata: match = True`.
Arguments thread the current `match`, `result` and module-scope `rd`
values; returns their values after the loop. -/
def answerLoop (rdata : Rdata) : List Rdata → Bool → ResultVal → Option Rdata →
    Bool × ResultVal × Option Rdata
  | [], m, res, rdv => (m, res, rdv)
  | rd :: rest, m, _res, _rdv =>
      answerLoop rdata rest (if rd = rdata then true else m) (ResultVal.ans rd) (some rd)

/-- Lines 82-92: initialise `match = False`, `result = ''`, run the query
and the answer loop, or catch a `DNSException` and set
`result = e.__class__`.  The third component is the module-scope `rd`
variable, unchanged when the query raises. -/
def queryAndCompare (rdata : Rdata) (qr : QueryResult) (rdVar : Option Rdata) :
    Bool × ResultVal × Option Rdata :=
  match qr with
  | Except.ok ans => answerLoop rdata ans false ResultVal.empty rdVar
  | Except.error _e => (false, ResultVal.exc _e, rdVar)

/-- The verbose block printed on lines 100-103: banner, query parameters,
expected rdata, and the `Got     :` value — which the script takes from
the loop variable `rd`, not from `result`. -/
structure VerboseBlock where
  banner : String
  nameserver : String
  name : String
  rdtype : Nat
  rdclass : Nat
  expected : Rdata
  got : Rdata
deriving DecidableEq, Repr

/-- One unit of stdout output: a flushed progress character
(`sys.stdout.write`, lines 107/112), a printed line, or a verbose block. -/
inductive OutEvent
  | progress (c : Char)
  | line (s : String)
  | verbose (b : VerboseBlock)
deriving DecidableEq, Repr

/-- Mutable state of the module-level loop: the two counters (lines 74-75),
the module-scope `rd` variable, and the output emitted so far. -/
structure LoopState where
  matched : Nat
  mismatched : Nat
  rdVar : Option Rdata
  out : List OutEvent
deriving DecidableEq, Repr

/-- Lines 77-80: skip SOA records unless `--soa`, skip NS records unless
`--ns`. -/
def skipRecord (opts : Options) (rdata : Rdata) : Bool :=
  if rdata.rdtype = SOA ∧ opts.compare_soa = false then true
  else if rdata.rdtype = NS ∧ opts.compare_ns = false then true
  else false

/-- The verbose block for one record (lines 94-103): banner from `match`,
query parameters from the option state and the record, `Expected` from the
zone rdata, and `Got` from the loop variable `rd`. -/
def mkBlock (opts : Options) (r : ZoneRecord) (m : Bool) (got : Rdata) : VerboseBlock :=
  { banner := if m then "[Match]" else "[MIS-MATCH]"
    nameserver := opts.nameserver.getD ""
    name := r.name
    rdtype := r.rdata.rdtype
    rdclass := r.rdata.rdclass
    expected := r.rdata
    got := got }

/-- One iteration of the loop body (lines 76-114) on record `r` from state
`st`: skip per `skipRecord`, otherwise query and compare, print the
verbose block or the progress character, and bump a counter.  Reading the
never-bound `rd` in the verbose block raises `NameError`. -/
def processRecord (opts : Options) (query : String → Nat → Nat → QueryResult)
    (st : LoopState) (r : ZoneRecord) : Except NameError LoopState :=
  if skipRecord opts r.rdata then Except.ok st
  else
    match queryAndCompare r.rdata (query r.name r.rdata.rdtype r.rdata.rdclass) st.rdVar with
    | (m, _res, rdv) =>
      if opts.verbose then
        match rdv with
        | none => Except.error NameError.rdUnbound
        | some got =>
            Except.ok
              { matched := st.matched + (if m then 1 else 0)
                mismatched := st.mismatched + (if m then 0 else 1)
                rdVar := rdv
                out := st.out ++ [OutEvent.verbose (mkBlock opts r m got)] }
      else
        Except.ok
          { matched := st.matched + (if m then 1 else 0)
            mismatched := st.mismatched + (if m then 0 else 1)
            rdVar := rdv
            out := st.out ++ [OutEvent.progress (if m then '.' else 'X')] }

/-- The whole `for (name, ttl, rdata) in z.iterate_rdatas()` loop: fold
`processRecord` over the zone; an uncaught `NameError` aborts the loop. -/
def runLoop (opts : Options) (query : String → Nat → Nat → QueryResult) :
    LoopState → List ZoneRecord → Except NameError LoopState
  | st, [] => Except.ok st
  | st, r :: rs =>
      match processRecord opts query st r with
      | Except.error e => Except.error e
      | Except.ok st2 => runLoop opts query st2 rs

/-- Lines 115-122: `done`, the results block, and the re-run hint when not
verbose and at least one mismatch.  Python 2's comma-print inserts one
space between the label and the number. -/
def summary (verbose : Bool) (matched mismatched : Nat) : List OutEvent :=
  [OutEvent.line "done",
   OutEvent.line "\nResults:",
   OutEvent.line ("Matches:      " ++ toString matched),
   OutEvent.line ("Mis-matches:  " ++ toString mismatched)]
  ++ (if verbose = false ∧ 0 < mismatched then
        [OutEvent.line " (re-run with --verbose to see details of the mis-matches )"]
      else [])

/-- Lines 74-122: run the loop from the zeroed counters with `rd` unbound,
then append the summary.  Returns the final counters and the full ordered
output, or the uncaught `NameError`. -/
def runProgram (opts : Options) (query : String → Nat → Nat → QueryResult)
    (zone : List ZoneRecord) : Except NameError (Nat × Nat × List OutEvent) :=
  match runLoop opts query { matched := 0, mismatched := 0, rdVar := none, out := [] } zone with
  | Except.error e => Except.error e
  | Except.ok st => Except.ok (st.matched, st.mismatched, st.out ++ summary opts.verbose st.matched st.mismatched)

/-- Which output stream a message goes to.  Python 2's bare `print`
statement writes to standard output. -/
inductive Stream
  | stdout
  | stderr
deriving DecidableEq, Repr

/-- Lines 65-67: when a required option is missing, `print` the usage
error (to stdout) and `sys.exit(-1)`. -/
def requiredArgsError (opts : Options) : Option (Stream × String × Int) :=
  if opts.zone = none ∨ opts.zonefile = none ∨ opts.nameserver = none then
    some (Stream.stdout, "Error: required arguments: --zone, --file, --server", -1)
  else none

/-- How a run of the script ends: early usage-error exit (before any zone
load or comparison), an uncaught exception, or normal completion. -/
inductive ProgResult
  | usageError (s : Stream) (msg : String) (code : Int)
  | crashed (e : NameError)
  | completed (matched mismatched : Nat) (out : List OutEvent)
deriving DecidableEq, Repr

/-- The script end to end (for a readable zone file parsed into `zone`):
the required-options check of lines 65-67 runs first and exits before any
comparison; otherwise the comparison loop and summary run. -/
def runScript (opts : Options) (query : String → Nat → Nat → QueryResult)
    (zone : List ZoneRecord) : ProgResult :=
  match requiredArgsError opts with
  | some (s, msg, code) => ProgResult.usageError s msg code
  | none =>
      match runProgram opts query zone with
      | Except.error e => ProgResult.crashed e
      | Except.ok (m, mm, out) => ProgResult.completed m mm out

/-- Process exit status: the `sys.exit(-1)` code for the usage error,
Python's exit status 1 for an uncaught exception, and 0 when the script
falls off the end. -/
def exitCode : ProgResult → Int
  | ProgResult.usageError _ _ code => code
  | ProgResult.crashed _ => 1
  | ProgResult.completed _ _ _ => 0

/-! ### Concrete fixtures used by witnesses and counterexamples -/

/-- Sample A rdata for 10.0.0.1. -/
def rdA : Rdata := { rdtype := A, rdclass := IN, payload := [10, 0, 0, 1] }

/-- Sample A rdata for 10.0.0.2. -/
def rdB : Rdata := { rdtype := A, rdclass := IN, payload := [10, 0, 0, 2] }

/-- Zone record `a.example.com. 300 IN A 10.0.0.1`. -/
def recA : ZoneRecord := { name := "a.example.com.", ttl := 300, rdata := rdA }

/-- Zone record `b.example.com. 300 IN A 10.0.0.2`. -/
def recB : ZoneRecord := { name := "b.example.com.", ttl := 300, rdata := rdB }

/-- A SOA zone record. -/
def recSOA : ZoneRecord :=
  { name := "example.com.", ttl := 3600, rdata := { rdtype := SOA, rdclass := IN, payload := [1, 2, 3] } }

/-- Options with the three required arguments present, all flags off. -/
def optsPlain : Options :=
  { zone := some "example.com", zonefile := some "example.com.zone",
    nameserver := some "10.1.1.1", verbose := false, compare_soa := false, compare_ns := false }

/-- Like `optsPlain` but with `--verbose`. -/
def optsVerbose : Options := { optsPlain with verbose := true }

/-- Oracle on which every query raises a timeout. -/
def qTimeout : String → Nat → Nat → QueryResult :=
  fun _ _ _ => Except.error DNSFailure.timeout

/-- Oracle answering `a.example.com.` with `rdA` and timing out elsewhere. -/
def qAOnly : String → Nat → Nat → QueryResult :=
  fun n _ _ => if n = "a.example.com." then Except.ok [rdA] else Except.error DNSFailure.timeout

/-- The initial loop state of lines 74-75: zero counters, `rd` unbound. -/
def st0 : LoopState := { matched := 0, mismatched := 0, rdVar := none, out := [] }

/-! ### Helper lemmas about the answer loop -/

lemma Rdata.eq_iff (a b : Rdata) :
    a = b ↔ a.rdtype = b.rdtype ∧ a.rdclass = b.rdclass ∧ a.payload = b.payload := by
  cases a
  cases b
  simp

lemma answerLoop_fst (rdata : Rdata) :
    ∀ (ans : List Rdata) (m : Bool) (res : ResultVal) (rdv : Option Rdata),
      (answerLoop rdata ans m res rdv).1 = (m || ans.any fun rd => rd == rdata) := by
  intro ans
  induction ans with
  | nil => intro m res rdv; simp [answerLoop]
  | cons rd rest ih =>
      intro m res rdv
      by_cases hr : rd = rdata
      · simp [answerLoop, hr, ih]
      · have hb : (rd == rdata) = false := beq_eq_false_iff_ne.mpr hr
        simp [answerLoop, hr, ih, hb]

lemma queryAndCompare_fst_ok (rdata : Rdata) (ans : List Rdata) (rdv : Option Rdata) :
    (queryAndCompare rdata (Except.ok ans) rdv).1 = ans.any fun rd => rd == rdata := by
  simp [queryAndCompare, answerLoop_fst]

/-- The `match` flag does not depend on the inherited value of the loop
variable `rd`. -/
lemma queryAndCompare_fst_indep (rdata : Rdata) (qr : QueryResult) (rdv : Option Rdata) :
    (queryAndCompare rdata qr rdv).1 = (queryAndCompare rdata qr none).1 := by
  cases qr with
  | ok ans => simp [queryAndCompare, answerLoop_fst]
  | error e => rfl

/-! ### Derived views of the driver used to state theorems -/

/-- The `match` flag lines 82-92 compute for record `r` under oracle
`query`. -/
def recMatched (query : String → Nat → Nat → QueryResult) (r : ZoneRecord) : Bool :=
  (queryAndCompare r.rdata (query r.name r.rdata.rdtype r.rdata.rdclass) none).1

/-- The zone records that survive the skip policy of lines 77-80. -/
def keptRecords (opts : Options) (zone : List ZoneRecord) : List ZoneRecord :=
  zone.filter fun r => !skipRecord opts r.rdata

/-- How many of the records in `l` match. -/
def matchedCount (query : String → Nat → Nat → QueryResult) (l : List ZoneRecord) : Nat :=
  (l.filter (recMatched query)).length

/-- How many of the records in `l` mismatch. -/
def mismatchedCount (query : String → Nat → Nat → QueryResult) (l : List ZoneRecord) : Nat :=
  (l.filter fun r => !recMatched query r).length

/-- The progress characters of a non-verbose run over `l`, in order. -/
def progressEvents (query : String → Nat → Nat → QueryResult) (l : List ZoneRecord) : List OutEvent :=
  l.map fun r => OutEvent.progress (if recMatched query r then '.' else 'X')

/-- In non-verbose mode the loop never raises, processes exactly the kept
records in order, adds one progress character per kept record, and adds
the match and mismatch counts to the counters. -/
lemma runLoop_nonverbose (opts : Options) (query : String → Nat → Nat → QueryResult)
    (h : opts.verbose = false) :
    ∀ (zone : List ZoneRecord) (st : LoopState), ∃ st2,
      runLoop opts query st zone = Except.ok st2 ∧
      st2.matched = st.matched + matchedCount query (keptRecords opts zone) ∧
      st2.mismatched = st.mismatched + mismatchedCount query (keptRecords opts zone) ∧
      st2.out = st.out ++ progressEvents query (keptRecords opts zone) := by
  intro zone
  induction zone with
  | nil =>
      intro st
      refine ⟨st, rfl, ?_, ?_, ?_⟩ <;>
        simp [keptRecords, matchedCount, mismatchedCount, progressEvents]
  | cons r rs ih =>
      intro st
      by_cases hs : skipRecord opts r.rdata
      · have hk : keptRecords opts (r :: rs) = keptRecords opts rs := by
          simp [keptRecords, List.filter_cons, hs]
        have hp : processRecord opts query st r = Except.ok st := by
          simp [processRecord, hs]
        obtain ⟨st2, h1, h2, h3, h4⟩ := ih st
        exact ⟨st2, by simp [runLoop, hp, h1], by rw [hk]; exact h2,
               by rw [hk]; exact h3, by rw [hk]; exact h4⟩
      · rcases hqc : queryAndCompare r.rdata (query r.name r.rdata.rdtype r.rdata.rdclass) st.rdVar
          with ⟨m, res, rdv⟩
        have hm : recMatched query r = m := by
          have hi := queryAndCompare_fst_indep r.rdata
            (query r.name r.rdata.rdtype r.rdata.rdclass) st.rdVar
          rw [recMatched, ← hi, hqc]
        have hp : processRecord opts query st r = Except.ok
            { matched := st.matched + (if m then 1 else 0)
              mismatched := st.mismatched + (if m then 0 else 1)
              rdVar := rdv
              out := st.out ++ [OutEvent.progress (if m then '.' else 'X')] } := by
          simp [processRecord, hs, h, hqc]
        have hk : keptRecords opts (r :: rs) = r :: keptRecords opts rs := by
          simp [keptRecords, List.filter_cons, hs]
        obtain ⟨st2, h1, h2, h3, h4⟩ := ih
          { matched := st.matched + (if m then 1 else 0)
            mismatched := st.mismatched + (if m then 0 else 1)
            rdVar := rdv
            out := st.out ++ [OutEvent.progress (if m then '.' else 'X')] }
        refine ⟨st2, by simp [runLoop, hp, h1], ?_, ?_, ?_⟩
        · rw [h2, hk]
          cases m with
          | false => simp [matchedCount, List.filter_cons, hm]
          | true => simp [matchedCount, List.filter_cons, hm]; omega
        · rw [h3, hk]
          cases m with
          | false => simp [mismatchedCount, List.filter_cons, hm]; omega
          | true => simp [mismatchedCount, List.filter_cons, hm]
        · rw [h4, hk]
          simp [progressEvents, hm]

/-! ### Claim theorems -/

/-- C1: for every expected rdata and every successful query result, the
comparator's `match` flag is true iff at least one answer record agrees
with the expected record on type, class, and rdata payload; in
particular, when the answers contain exactly the expected rdata the flag
is true. -/
theorem comparator_matched_iff :
    ∀ (rdata : Rdata) (ans : List Rdata) (rdv : Option Rdata),
      ((queryAndCompare rdata (Except.ok ans) rdv).1 = true ↔
        ∃ rd ∈ ans, rd.rdtype = rdata.rdtype ∧ rd.rdclass = rdata.rdclass ∧
          rd.payload = rdata.payload) ∧
      (rdata ∈ ans → (queryAndCompare rdata (Except.ok ans) rdv).1 = true) := by
  intro rdata ans rdv
  have hiff : (queryAndCompare rdata (Except.ok ans) rdv).1 = true ↔
      ∃ rd ∈ ans, rd = rdata := by
    rw [queryAndCompare_fst_ok]
    simp [List.any_eq_true, beq_iff_eq]
  constructor
  · rw [hiff]
    constructor
    · rintro ⟨rd, hmem, hrd⟩
      exact ⟨rd, hmem, by rw [hrd], by rw [hrd], by rw [hrd]⟩
    · rintro ⟨rd, hmem, h1, h2, h3⟩
      exact ⟨rd, hmem, (Rdata.eq_iff rd rdata).mpr ⟨h1, h2, h3⟩⟩
  · intro hmem
    rw [hiff]
    exact ⟨rdata, hmem, rfl⟩

/-- Witness for C1: a server returning exactly the expected record yields
a match. -/
theorem comparator_matched_iff_witness :
    rdA ∈ [rdA] ∧ (queryAndCompare rdA (Except.ok [rdA]) none).1 = true :=
  ⟨by simp, (comparator_matched_iff rdA [rdA] none).2 (by simp)⟩

/-- C3: TTL is excluded from the equality test.  The per-record step of
the driver gives identical results on two zone records that differ only
in TTL, and an answer whose rdata equals the expected rdata matches (the
answer rdatas carry no TTL at all, mirroring dnspython). -/
theorem ttl_not_compared :
    (∀ (opts : Options) (query : String → Nat → Nat → QueryResult) (st : LoopState)
        (name : String) (t1 t2 : Nat) (rdata : Rdata),
      processRecord opts query st { name := name, ttl := t1, rdata := rdata } =
        processRecord opts query st { name := name, ttl := t2, rdata := rdata }) ∧
    (∀ (rdata : Rdata) (rdv : Option Rdata),
      (queryAndCompare rdata (Except.ok [rdata]) rdv).1 = true) := by
  constructor
  · intro opts query st name t1 t2 rdata
    rfl
  · intro rdata rdv
    simp [queryAndCompare, answerLoop]

/-- C4: a record is skipped exactly when it is a SOA record without
`--soa` or an NS record without `--ns`; a skipped record produces no
outcome and no query, while a non-skipped record produces exactly one
outcome (one counter increment). -/
theorem skip_policy :
    ∀ (opts : Options) (query : String → Nat → Nat → QueryResult) (st : LoopState)
      (r : ZoneRecord),
      (skipRecord opts r.rdata = true ↔
        (r.rdata.rdtype = SOA ∧ opts.compare_soa = false) ∨
        (r.rdata.rdtype = NS ∧ opts.compare_ns = false)) ∧
      (skipRecord opts r.rdata = true → processRecord opts query st r = Except.ok st) ∧
      (skipRecord opts r.rdata = false → ∀ st2,
        processRecord opts query st r = Except.ok st2 →
        st2.matched + st2.mismatched = st.matched + st.mismatched + 1) := by
  intro opts query st r
  refine ⟨?_, ?_, ?_⟩
  · unfold skipRecord
    split_ifs with h1 h2
    · simp [h1]
    · simp [h2]
    · constructor
      · intro hx
        simp at hx
      · intro hor
        cases hor with
        | inl hc => exact absurd hc h1
        | inr hc => exact absurd hc h2
  · intro hsk
    simp [processRecord, hsk]
  · intro hns st2 hps
    rcases hqc : queryAndCompare r.rdata (query r.name r.rdata.rdtype r.rdata.rdclass) st.rdVar
      with ⟨m, res, rdv⟩
    cases hv : opts.verbose with
    | false =>
        simp [processRecord, hns, hqc, hv] at hps
        cases m <;> simp [← hps] <;> omega
    | true =>
        cases rdv with
        | none => simp [processRecord, hns, hqc, hv] at hps
        | some g =>
            simp [processRecord, hns, hqc, hv] at hps
            cases m <;> simp [← hps] <;> omega

/-- Witness for C4: a SOA record without `--soa` is skipped without any
state change. -/
theorem skip_policy_witness :
    processRecord optsPlain qTimeout st0 recSOA = Except.ok st0 :=
  (skip_policy optsPlain qTimeout st0 recSOA).2.1 (by decide)

/-- Helper for C9: the answer loop leaves the last answer in `result` and
in the loop variable `rd`. -/
lemma answerLoop_last (rdata : Rdata) :
    ∀ (ans : List Rdata) (h : ans ≠ []) (m : Bool) (res : ResultVal) (rdv : Option Rdata),
      (answerLoop rdata ans m res rdv).2.1 = ResultVal.ans (ans.getLast h) ∧
      (answerLoop rdata ans m res rdv).2.2 = some (ans.getLast h) := by
  intro ans
  induction ans with
  | nil => intro h; exact absurd rfl h
  | cons rd rest ih =>
      intro h m res rdv
      cases rest with
      | nil => simp [answerLoop]
      | cons rd2 rest2 =>
          have hne : rd2 :: rest2 ≠ [] := by simp
          have hstep := ih hne (if rd = rdata then true else m) (ResultVal.ans rd) (some rd)
          simp only [answerLoop]
          rw [List.getLast_cons hne]
          exact hstep

/-- C9: on a successful query the representative actual value retained
for reporting (`result`, and the loop variable `rd` that the verbose
block prints) is the last answer in iteration order, whichever answer
matched. -/
theorem actual_is_last (rdata : Rdata) (ans : List Rdata) (rdv : Option Rdata) (h : ans ≠ []) :
    (queryAndCompare rdata (Except.ok ans) rdv).2.1 = ResultVal.ans (ans.getLast h) ∧
    (queryAndCompare rdata (Except.ok ans) rdv).2.2 = some (ans.getLast h) :=
  answerLoop_last rdata ans h false ResultVal.empty rdv

/-- Witness for C9: with answers `[rdA, rdB]` and expected `rdA`, the
first answer matches, yet the reportable actual value is `rdB`. -/
theorem actual_is_last_witness :
    (queryAndCompare rdA (Except.ok [rdA, rdB]) none).2.1 = ResultVal.ans rdB ∧
    (queryAndCompare rdA (Except.ok [rdA, rdB]) none).1 = true := by
  constructor
  · have hw := (actual_is_last rdA [rdA, rdB] none (by simp)).1
    simpa using hw
  · decide

/-- C10: in verbose mode the `Got` line prints the answer-loop variable
`rd`, not the caught failure.  When the query of a non-skipped record
raises and the variable was never bound, the step raises `NameError` — so
a failure on the first compared record crashes the whole loop; when the
variable was bound by an earlier record, the block shows that stale
answer. -/
theorem verbose_got_unbound_or_stale :
    ∀ (opts : Options) (query : String → Nat → Nat → QueryResult) (st : LoopState)
      (r : ZoneRecord) (e : DNSFailure) (rest : List ZoneRecord),
      opts.verbose = true →
      skipRecord opts r.rdata = false →
      query r.name r.rdata.rdtype r.rdata.rdclass = Except.error e →
      (st.rdVar = none → processRecord opts query st r = Except.error NameError.rdUnbound) ∧
      (∀ g, st.rdVar = some g →
        processRecord opts query st r = Except.ok
          { matched := st.matched
            mismatched := st.mismatched + 1
            rdVar := some g
            out := st.out ++ [OutEvent.verbose (mkBlock opts r false g)] }) ∧
      (runLoop opts query { matched := 0, mismatched := 0, rdVar := none, out := [] }
        (r :: rest) = Except.error NameError.rdUnbound) := by
  intro opts query st r e rest hv hns hq
  have hqc0 : queryAndCompare r.rdata (query r.name r.rdata.rdtype r.rdata.rdclass)
      (none : Option Rdata) = (false, ResultVal.exc e, none) := by
    rw [hq]
    rfl
  refine ⟨?_, ?_, ?_⟩
  · intro hrd
    simp [processRecord, hns, hqc0, hv, hrd]
  · intro g hrd
    have hqcg : queryAndCompare r.rdata (query r.name r.rdata.rdtype r.rdata.rdclass)
        (some g) = (false, ResultVal.exc e, some g) := by
      rw [hq]
      rfl
    simp [processRecord, hns, hqcg, hv, hrd]
  · simp [runLoop, processRecord, hns, hqc0, hv]

/-- Witness for C10: with `--verbose` and every query timing out, the
first record crashes the loop; with the variable holding `rdA` from an
earlier record, the failing `recB` block shows the stale `rdA`. -/
theorem verbose_got_unbound_or_stale_witness :
    processRecord optsVerbose qTimeout st0 recA = Except.error NameError.rdUnbound ∧
    processRecord optsVerbose qTimeout
        { matched := 1, mismatched := 0, rdVar := some rdA, out := [] } recB =
      Except.ok
        { matched := 1, mismatched := 1, rdVar := some rdA,
          out := [OutEvent.verbose (mkBlock optsVerbose recB false rdA)] } ∧
    runLoop optsVerbose qTimeout { matched := 0, mismatched := 0, rdVar := none, out := [] }
      [recA] = Except.error NameError.rdUnbound := by
  refine ⟨?_, ?_, ?_⟩
  · exact (verbose_got_unbound_or_stale optsVerbose qTimeout st0 recA
      DNSFailure.timeout [] rfl rfl rfl).1 rfl
  · exact (verbose_got_unbound_or_stale optsVerbose qTimeout
      { matched := 1, mismatched := 0, rdVar := some rdA, out := [] } recB
      DNSFailure.timeout [] rfl rfl rfl).2.1 rdA rfl
  · exact (verbose_got_unbound_or_stale optsVerbose qTimeout st0 recA
      DNSFailure.timeout [] rfl rfl rfl).2.2

/-- C2 (code bug): with `--verbose`, a failing query on the first
compared record raises `NameError` and aborts the loop — neither record
of the two-record zone yields an outcome; without `--verbose` the same
failures are contained and the driver produces both outcomes
(0 matches + 2 mismatches = 2 non-skipped records). -/
theorem driver_abort_on_first_failure :
    runProgram optsVerbose qTimeout [recA, recB] = Except.error NameError.rdUnbound ∧
    (∃ out, runProgram optsPlain qTimeout [recA, recB] = Except.ok (0, 2, out)) :=
  ⟨rfl, ⟨_, rfl⟩⟩

/-- C5 (code bug): in verbose mode the block for a failed query does not
show the caught failure.  With `recA` answered by `[rdA]` and `recB`'s
query raising a timeout, `recB`'s block shows the stale `rdA` as `Got`,
although `result` holds the timeout failure — which is never printed. -/
theorem verbose_shows_stale_not_failure :
    (∃ tail, runProgram optsVerbose qAOnly [recA, recB] = Except.ok (1, 1,
      OutEvent.verbose
        { banner := "[Match]", nameserver := "10.1.1.1", name := "a.example.com.",
          rdtype := 1, rdclass := 1, expected := rdA, got := rdA } ::
      OutEvent.verbose
        { banner := "[MIS-MATCH]", nameserver := "10.1.1.1", name := "b.example.com.",
          rdtype := 1, rdclass := 1, expected := rdB, got := rdA } :: tail)) ∧
    qAOnly recB.name recB.rdata.rdtype recB.rdata.rdclass =
      Except.error DNSFailure.timeout ∧
    queryAndCompare rdB (qAOnly recB.name recB.rdata.rdtype recB.rdata.rdclass) (some rdA) =
      (false, ResultVal.exc DNSFailure.timeout, some rdA) :=
  ⟨⟨summary true 1 1, rfl⟩, rfl, rfl⟩

/-- C8 (code bug): completing the loop always exits 0, whatever the
counts; but a non-zero exit is possible with no configuration or setup
error: with all required options present, verbose mode exits 1 via the
uncaught `NameError` when the first compared record's query fails. -/
theorem exit_code_crash :
    exitCode (ProgResult.completed 0 5 []) = 0 ∧
    requiredArgsError optsVerbose = none ∧
    runScript optsVerbose qTimeout [recA] = ProgResult.crashed NameError.rdUnbound ∧
    exitCode (runScript optsVerbose qTimeout [recA]) = 1 :=
  ⟨rfl, rfl, rfl, rfl⟩

/-- C6 counterexample: with `--zone` missing the usage error goes to
standard output, not standard error. -/
theorem usage_error_not_stderr :
    runScript { zone := none, zonefile := some "example.com.zone",
                nameserver := some "10.1.1.1", verbose := false,
                compare_soa := false, compare_ns := false } qTimeout [] =
      ProgResult.usageError Stream.stdout
        "Error: required arguments: --zone, --file, --server" (-1) ∧
    Stream.stdout ≠ Stream.stderr :=
  ⟨rfl, by decide⟩

/-- C6 (amended): when any of the three required arguments is missing the
script prints the usage error to standard output and exits with the
non-zero status -1 before any comparison begins (the query oracle and the
zone are never consulted). -/
theorem usage_error_stdout (opts : Options)
    (h : opts.zone = none ∨ opts.zonefile = none ∨ opts.nameserver = none) :
    ∀ (query : String → Nat → Nat → QueryResult) (zone : List ZoneRecord),
      runScript opts query zone = ProgResult.usageError Stream.stdout
        "Error: required arguments: --zone, --file, --server" (-1) ∧
      exitCode (runScript opts query zone) = -1 ∧ (-1 : Int) ≠ 0 := by
  intro query zone
  have hr : requiredArgsError opts = some (Stream.stdout,
      "Error: required arguments: --zone, --file, --server", -1) := by
    rw [requiredArgsError, if_pos h]
  refine ⟨?_, ?_, by decide⟩
  · simp [runScript, hr]
  · simp [runScript, hr, exitCode]

/-- Witness for the amended C6: all three arguments missing. -/
theorem usage_error_stdout_witness :
    runScript { zone := none, zonefile := none, nameserver := none, verbose := false,
                compare_soa := false, compare_ns := false } qTimeout [recA] =
      ProgResult.usageError Stream.stdout
        "Error: required arguments: --zone, --file, --server" (-1) :=
  (usage_error_stdout _ (Or.inl rfl) qTimeout [recA]).1

/-- C7: a non-verbose run emits exactly one progress character per kept
record — `.` on a match, `X` on a mismatch — in zone iteration order,
then `done` and the results block with both counts, plus the re-run hint
exactly when at least one record mismatched. -/
theorem nonverbose_output (opts : Options) (query : String → Nat → Nat → QueryResult)
    (zone : List ZoneRecord) (h : opts.verbose = false) :
    runProgram opts query zone = Except.ok
      (matchedCount query (keptRecords opts zone),
       mismatchedCount query (keptRecords opts zone),
       progressEvents query (keptRecords opts zone) ++
         [OutEvent.line "done",
          OutEvent.line "\nResults:",
          OutEvent.line ("Matches:      " ++
            toString (matchedCount query (keptRecords opts zone))),
          OutEvent.line ("Mis-matches:  " ++
            toString (mismatchedCount query (keptRecords opts zone)))] ++
         (if 0 < mismatchedCount query (keptRecords opts zone) then
            [OutEvent.line " (re-run with --verbose to see details of the mis-matches )"]
          else [])) := by
  obtain ⟨st2, h1, h2, h3, h4⟩ := runLoop_nonverbose opts query h zone
    { matched := 0, mismatched := 0, rdVar := none, out := [] }
  simp [runProgram, h1, h2, h3, h4, summary, h, List.append_assoc]

/-- Witness for C7: `recA` matches, `recB` times out — one dot, one X,
`done`, both counts, and the hint. -/
theorem nonverbose_output_witness :
    runProgram optsPlain qAOnly [recA, recB] = Except.ok
      (1, 1,
       [OutEvent.progress '.', OutEvent.progress 'X',
        OutEvent.line "done", OutEvent.line "\nResults:",
        OutEvent.line "Matches:      1", OutEvent.line "Mis-matches:  1",
        OutEvent.line " (re-run with --verbose to see details of the mis-matches )"]) := by
  have hw := nonverbose_output optsPlain qAOnly [recA, recB] rfl
  exact hw.trans (by rfl)

end DnsCompare
